import Mathlib

/-!
Verification of the ParkingApp serverless workflow: a Reservation Service
(`parking-reservation/main.py.py`, functions `publish_email`,
`get_available_spots`, `reserve`) and a Notification Dispatcher
(`send-email/main.py`, function `send_email`).

The embedding models the external collaborators explicitly:
* the Firestore document store as a list of reservation documents, a query
  outcome as `Except String (List Doc)` (error = the raised exception text);
* the Pub/Sub publish outcome as `Option String` (some e = `future.result()`
  raised with message e);
* server-generated document ids and `datetime.now()` as parameters.
-/

namespace ParkingApp

/-- A reservation document as stored in the `reservations` collection.
`spot` is optional because `get_available_spots` guards with
`if 'spot' in reservation_data`. -/
structure Doc where
  id : String
  zone : String
  spot : Option String
  date : String
  email : String
  created_at : String
  status : String
deriving DecidableEq, Repr

/-- The `zone_limits` dict in `get_available_spots`; lookup of a key not in
the dict raises `KeyError`, modelled by `none`. -/
def zone_limits (zone : String) : Option Nat :=
  if zone = "A" then some 55
  else if zone = "B" then some 52
  else if zone = "C" then some 45
  else none

/-- The Firestore query
`db.collection('reservations').where('zone','==',zone).where('date','==',date)`:
all stored documents whose zone and date fields match. -/
def queryReservations (store : List Doc) (zone date : String) : List Doc :=
  store.filter (fun d => d.zone == zone && d.date == date)

/-- The `used_spots` set collected from the query results: the `spot` field of
every returned document that has one (no status filter in the source). -/
def used_spots (docs : List Doc) : List String :=
  docs.filterMap (fun d => d.spot)

/-- `all_spots = [f"{zone}{i}" for i in range(1, zone_limits[zone] + 1)]`. -/
def all_spots (zone : String) (cap : Nat) : List String :=
  (List.range cap).map (fun i => zone ++ toString (i + 1))

/-- `get_available_spots(zone, date)`. The first argument is the outcome of
the store query (the whole body sits in a `try` whose `except` returns `[]`,
which also swallows the `KeyError` from `zone_limits[zone]`). -/
def get_available_spots (q : Except String (List Doc)) (zone date : String) :
    List String :=
  match q with
  | Except.error _ => []
  | Except.ok docs =>
    match zone_limits zone with
    | none => []
    | some cap =>
      let used := used_spots (queryReservations docs zone date)
      (all_spots zone cap).filter (fun s => !(used.contains s))

/-- Python truthiness of an optional string field (`request.args.get(...)` /
`request_data.get(...)` result): `None` and the empty string are falsy. -/
def truthy : Option String → Bool
  | none => false
  | some s => !(s == "")

/-- HTTP method of the incoming Flask request. -/
inductive Method where
  | OPTIONS
  | GET
  | POST
  | other
deriving DecidableEq, Repr

/-- The parts of the Flask request object that `reserve` reads:
method, `request.path.endswith('/available-spots')`, the two query-string
parameters, and the four JSON body fields. -/
structure HttpRequest where
  method : Method
  pathEndsAvailableSpots : Bool
  argZone : Option String
  argDate : Option String
  bodyZone : Option String
  bodyDate : Option String
  bodyEmail : Option String
  bodySpot : Option String
deriving DecidableEq, Repr

/-- Response bodies `reserve` can produce. -/
inductive Body where
  | empty
  | availableSpotsJson (spots : List String) (zone date : String)
  | errorJson (msg : String)
  | successJson (spot reservationId : String)
deriving DecidableEq, Repr

/-- A response: body plus HTTP status (the CORS headers are attached to every
response identically and carry no information). -/
structure HttpResponse where
  body : Body
  status : Nat
deriving DecidableEq, Repr

/-- The payload dict built by `publish_email`:
`{'to': to, 'subject': subject, 'message': message}`, as an ordered
key/value list (the JSON object that is serialized onto the queue). -/
def publish_email_payload (toAddr subject message : String) :
    List (String × String) :=
  [("to", toAddr), ("subject", subject), ("message", message)]

/-- The confirmation email body rendered by `reserve`. -/
def confirmationMessage (zone spot date reservationId : String) : String :=
  "Dear Customer,\n\n" ++
  "Your parking reservation has been confirmed:\n" ++
  "- Zone: " ++ zone ++ "\n" ++
  "- Spot Number: " ++ spot ++ "\n" ++
  "- Date: " ++ date ++ "\n" ++
  "- Reservation ID: " ++ reservationId ++ "\n\n" ++
  "Best regards,\nThe ParkingApp Team"

/-- The result of one `reserve` invocation: the HTTP response, the store
contents afterwards, and the payloads successfully published to Pub/Sub. -/
structure ReserveOutcome where
  response : HttpResponse
  store : List Doc
  published : List (List (String × String))
deriving DecidableEq, Repr

/-- Outcome of the Firestore stream read inside `get_available_spots`:
`queryFail = some e` means the query raised with message `e`. -/
def queryResult (store : List Doc) (queryFail : Option String) :
    Except String (List Doc) :=
  match queryFail with
  | none => Except.ok store
  | some e => Except.error e

/-- The Cloud Function `reserve(request)`. Beyond the request, its behaviour
depends on the store contents and on the outcomes of the external calls,
which are passed explicitly: `queryFail` (Firestore query exception, if any),
`publishFail` (`publish_email` exception, if any), `newId` (the id Firestore
generates for `db.collection('reservations').document()`), and `now`
(`datetime.now().isoformat()`). -/
def reserve (req : HttpRequest) (store : List Doc) (queryFail : Option String)
    (publishFail : Option String) (newId : String) (now : String) :
    ReserveOutcome :=
  if req.method = Method.OPTIONS then
    ⟨⟨Body.empty, 204⟩, store, []⟩
  else if req.method = Method.GET ∧ req.pathEndsAvailableSpots = true then
    if !(truthy req.argZone) || !(truthy req.argDate) then
      ⟨⟨Body.errorJson "Missing zone or date parameter", 400⟩, store, []⟩
    else
      let zone := req.argZone.getD ""
      let date := req.argDate.getD ""
      let spots := get_available_spots (queryResult store queryFail) zone date
      ⟨⟨Body.availableSpotsJson spots zone date, 200⟩, store, []⟩
  else if req.method = Method.POST then
    let zone := req.bodyZone.getD ""
    let date := req.bodyDate.getD ""
    let email := req.bodyEmail.getD ""
    if !(truthy req.bodyZone && truthy req.bodyDate && truthy req.bodyEmail) then
      ⟨⟨Body.errorJson "Missing required fields", 400⟩, store, []⟩
    else if !(["A", "B", "C"].contains zone) then
      ⟨⟨Body.errorJson "Invalid zone", 400⟩, store, []⟩
    else
      let available_spots :=
        get_available_spots (queryResult store queryFail) zone date
      let chosen : Except HttpResponse String :=
        if truthy req.bodySpot then
          if !(available_spots.contains (req.bodySpot.getD "")) then
            Except.error ⟨Body.errorJson "Selected spot is no longer available", 400⟩
          else
            Except.ok (req.bodySpot.getD "")
        else
          match available_spots with
          | [] =>
            Except.error
              ⟨Body.errorJson "No available spots in this zone for selected date", 400⟩
          | s :: _ => Except.ok s
      match chosen with
      | Except.error resp => ⟨resp, store, []⟩
      | Except.ok s =>
        let doc : Doc := ⟨newId, zone, some s, date, email, now, "confirmed"⟩
        let store2 := store ++ [doc]
        match publishFail with
        | some e => ⟨⟨Body.errorJson e, 500⟩, store2, []⟩
        | none =>
          ⟨⟨Body.successJson s newId, 200⟩, store2,
            [publish_email_payload email "Parking Reservation Confirmation"
              (confirmationMessage zone s date newId)]⟩
  else
    ⟨⟨Body.errorJson "Method not allowed", 405⟩, store, []⟩

/-- A POST request carrying the given JSON body fields. -/
def postReq (zone date email spot : Option String) : HttpRequest :=
  { method := Method.POST, pathEndsAvailableSpots := false,
    argZone := none, argDate := none,
    bodyZone := zone, bodyDate := date, bodyEmail := email, bodySpot := spot }

/-- A GET request to `.../available-spots` with the given query parameters. -/
def getReq (zone date : Option String) : HttpRequest :=
  { method := Method.GET, pathEndsAvailableSpots := true,
    argZone := zone, argDate := date,
    bodyZone := none, bodyDate := none, bodyEmail := none, bodySpot := none }

/-- The credential object unpickled from `token.pickle` in `send_email`.
`expired` and `refresh_token` are the attributes the source reads;
`refreshed` records whether `creds.refresh(Request())` was called (the
in-memory mutation performed by the google-auth library, modelled as
clearing `expired` and setting this flag). -/
structure Credential where
  expired : Bool
  refresh_token : Option String
  refreshed : Bool
deriving DecidableEq, Repr

/-- `creds.refresh(Request())`: the auth library obtains a fresh access
token, so the credential is no longer expired. -/
def refreshCredential (c : Credential) : Credential :=
  { c with expired := false, refreshed := true }

/-- `if creds and creds.expired and creds.refresh_token: creds.refresh(...)`.
The unpickled `creds` may be `None` (falsy); a `refresh_token` that is `None`
or the empty string is falsy. -/
def refreshStep (creds : Option Credential) : Option Credential :=
  match creds with
  | none => none
  | some c =>
    if c.expired && truthy c.refresh_token then some (refreshCredential c)
    else some c

/-- What `send_email` does after decoding the payload and loading the
credential: it always proceeds to build the Gmail service with the
(possibly refreshed) credential and submit the message — there is no
early-failure path for an unusable credential. -/
inductive DispatchStep where
  | attemptSend (creds : Option Credential) (toAddr subject message : String)
deriving DecidableEq, Repr

/-- The credential-handling and send portion of `send_email` (lines 27-49 of
`send-email/main.py`): load `creds` from blob storage, refresh when expired
with a refresh token present, then attempt the send. -/
def send_email_dispatch (creds : Option Credential)
    (toAddr subject message : String) : DispatchStep :=
  DispatchStep.attemptSend (refreshStep creds) toAddr subject message

/-- Key lookup in a decoded JSON object, as `email_data['k']` does:
`none` models the `KeyError` on a missing key. -/
def jsonLookup (obj : List (String × String)) (k : String) : Option String :=
  (obj.find? (fun p => p.1 == k)).map (fun p => p.2)

/-- The field extraction performed by `send_email`:
`to = email_data['to']; subject = email_data['subject'];
message = email_data['message']` — `none` iff some key is missing. -/
def extract_email_fields (obj : List (String × String)) :
    Option (String × String × String) :=
  match jsonLookup obj "to", jsonLookup obj "subject", jsonLookup obj "message" with
  | some t, some s, some m => some (t, s, m)
  | _, _, _ => none

/-- Spec-side definition (refinement target for the availability claim): the
spot identifiers carried by stored reservations whose status is `confirmed`,
matching zone and date — the spec says the complement of the available list
is exactly this set, while the source query applies no status filter. -/
def specConfirmedSpots (store : List Doc) (zone date : String) : List String :=
  used_spots
    ((queryReservations store zone date).filter (fun d => d.status == "confirmed"))

/-! ### Helper lemmas -/

theorem zone_limits_cases (zone : String) (cap : Nat)
    (h : zone_limits zone = some cap) :
    (zone = "A" ∧ cap = 55) ∨ (zone = "B" ∧ cap = 52) ∨ (zone = "C" ∧ cap = 45) := by
  unfold zone_limits at h
  split at h
  · exact Or.inl ⟨by assumption, by injection h; omega⟩
  · split at h
    · exact Or.inr (Or.inl ⟨by assumption, by injection h; omega⟩)
    · split at h
      · exact Or.inr (Or.inr ⟨by assumption, by injection h; omega⟩)
      · exact absurd h (by simp)

theorem all_spots_nodup (zone : String) (cap : Nat)
    (h : zone_limits zone = some cap) : (all_spots zone cap).Nodup := by
  rcases zone_limits_cases zone cap h with ⟨hz, hc⟩ | ⟨hz, hc⟩ | ⟨hz, hc⟩ <;>
    subst hz <;> subst hc <;> decide

theorem get_available_spots_ok (docs : List Doc) (zone date : String) (cap : Nat)
    (h : zone_limits zone = some cap) :
    get_available_spots (Except.ok docs) zone date
      = (all_spots zone cap).filter
          (fun s => !((used_spots (queryReservations docs zone date)).contains s)) := by
  simp [get_available_spots, h]

theorem avail_of_no_matching (store : List Doc) (zone date : String) (cap : Nat)
    (hcap : zone_limits zone = some cap)
    (hmatch : queryReservations store zone date = []) :
    get_available_spots (Except.ok store) zone date = all_spots zone cap := by
  rw [get_available_spots_ok store zone date cap hcap, hmatch]
  simp [used_spots]

theorem queryReservations_append (store₁ store₂ : List Doc) (zone date : String) :
    queryReservations (store₁ ++ store₂) zone date
      = queryReservations store₁ zone date ++ queryReservations store₂ zone date := by
  simp [queryReservations]

theorem zone_ne_empty_of_valid (zone : String)
    (hz : ["A", "B", "C"].contains zone = true) : zone ≠ "" := by
  rcases (by simpa using hz : zone = "A" ∨ zone = "B" ∨ zone = "C") with rfl | rfl | rfl <;>
    decide

/-- Unfolding of `reserve` on a valid POST body with no spot requested and a
non-empty availability list: the head is assigned and persisted. -/
theorem reserve_auto_assign (store : List Doc) (zone date email newId now : String)
    (publishFail : Option String) (s : String) (rest : List String)
    (hz : ["A", "B", "C"].contains zone = true)
    (hd : date ≠ "") (he : email ≠ "")
    (hav : get_available_spots (Except.ok store) zone date = s :: rest) :
    reserve (postReq (some zone) (some date) (some email) none) store none
        publishFail newId now
      = { response :=
            match publishFail with
            | some e => ⟨Body.errorJson e, 500⟩
            | none => ⟨Body.successJson s newId, 200⟩,
          store := store ++ [⟨newId, zone, some s, date, email, now, "confirmed"⟩],
          published :=
            match publishFail with
            | some _ => []
            | none =>
              [publish_email_payload email "Parking Reservation Confirmation"
                (confirmationMessage zone s date newId)] } := by
  rcases (by simpa using hz : zone = "A" ∨ zone = "B" ∨ zone = "C") with rfl | rfl | rfl <;>
    cases publishFail <;>
      simp [reserve, postReq, truthy, queryResult, hd, he, hav]

/-- Unfolding of `reserve` on a valid POST body with an explicitly requested
spot that is in the availability list: the requested spot is persisted. -/
theorem reserve_requested_assign (store : List Doc)
    (zone date email spot newId now : String) (publishFail : Option String)
    (hz : ["A", "B", "C"].contains zone = true)
    (hd : date ≠ "") (he : email ≠ "") (hs : spot ≠ "")
    (hmem : spot ∈ get_available_spots (Except.ok store) zone date) :
    reserve (postReq (some zone) (some date) (some email) (some spot)) store none
        publishFail newId now
      = { response :=
            match publishFail with
            | some e => ⟨Body.errorJson e, 500⟩
            | none => ⟨Body.successJson spot newId, 200⟩,
          store := store ++ [⟨newId, zone, some spot, date, email, now, "confirmed"⟩],
          published :=
            match publishFail with
            | some _ => []
            | none =>
              [publish_email_payload email "Parking Reservation Confirmation"
                (confirmationMessage zone spot date newId)] } := by
  rcases (by simpa using hz : zone = "A" ∨ zone = "B" ∨ zone = "C") with rfl | rfl | rfl <;>
    cases publishFail <;>
      simp [reserve, postReq, truthy, queryResult, hd, he, hs, hmem]

/-- Unfolding of `reserve` on a valid POST body with no spot requested and an
empty availability list. -/
theorem reserve_no_spots (store : List Doc) (zone date email newId now : String)
    (queryFail publishFail : Option String)
    (hz : ["A", "B", "C"].contains zone = true)
    (hd : date ≠ "") (he : email ≠ "")
    (hav : get_available_spots (queryResult store queryFail) zone date = []) :
    reserve (postReq (some zone) (some date) (some email) none) store queryFail
        publishFail newId now
      = ⟨⟨Body.errorJson "No available spots in this zone for selected date", 400⟩,
         store, []⟩ := by
  rcases (by simpa using hz : zone = "A" ∨ zone = "B" ∨ zone = "C") with rfl | rfl | rfl <;>
    simp [reserve, postReq, truthy, hd, he, hav]

/-- Unfolding of `reserve` on a valid POST body with a requested spot that is
not in the availability list. -/
theorem reserve_spot_unavailable (store : List Doc)
    (zone date email spot newId now : String)
    (queryFail publishFail : Option String)
    (hz : ["A", "B", "C"].contains zone = true)
    (hd : date ≠ "") (he : email ≠ "") (hs : spot ≠ "")
    (hns : (get_available_spots (queryResult store queryFail) zone date).contains spot
            = false) :
    reserve (postReq (some zone) (some date) (some email) (some spot)) store queryFail
        publishFail newId now
      = ⟨⟨Body.errorJson "Selected spot is no longer available", 400⟩, store, []⟩ := by
  have hns' : spot ∉ get_available_spots (queryResult store queryFail) zone date := by
    simpa using hns
  rcases (by simpa using hz : zone = "A" ∨ zone = "B" ∨ zone = "C") with rfl | rfl | rfl <;>
    simp [reserve, postReq, truthy, hd, he, hs, hns']

/-- Unfolding of `reserve` on a POST body with a missing or empty required
field. -/
theorem reserve_missing_fields (store : List Doc) (z d e s : Option String)
    (queryFail publishFail : Option String) (newId now : String)
    (hmiss : (truthy z && truthy d && truthy e) = false) :
    reserve (postReq z d e s) store queryFail publishFail newId now
      = ⟨⟨Body.errorJson "Missing required fields", 400⟩, store, []⟩ := by
  simp [reserve, postReq, hmiss]

/-- Unfolding of `reserve` on a POST body whose fields are all present but
whose zone is not a valid zone code. -/
theorem reserve_invalid_zone (store : List Doc) (z d e s : Option String)
    (queryFail publishFail : Option String) (newId now : String)
    (hall : (truthy z && truthy d && truthy e) = true)
    (hz : (["A", "B", "C"].contains (z.getD "")) = false) :
    reserve (postReq z d e s) store queryFail publishFail newId now
      = ⟨⟨Body.errorJson "Invalid zone", 400⟩, store, []⟩ := by
  have hz' : ¬(z.getD "" = "A" ∨ z.getD "" = "B" ∨ z.getD "" = "C") := by
    simpa using hz
  simp [reserve, postReq, hall, hz']

/-- Unfolding of `reserve` on a GET `.../available-spots` request with both
parameters present and non-empty. -/
theorem reserve_get (store : List Doc) (zone date : String)
    (queryFail publishFail : Option String) (newId now : String)
    (hz : zone ≠ "") (hd : date ≠ "") :
    reserve (getReq (some zone) (some date)) store queryFail publishFail newId now
      = ⟨⟨Body.availableSpotsJson
            (get_available_spots (queryResult store queryFail) zone date) zone date,
          200⟩, store, []⟩ := by
  simp [reserve, getReq, truthy, hz, hd]

/-! ### Claim theorems -/

/-- C1, counterexample: a stored reservation with status `pending` for
(A, 2024-06-01) on spot A1 removes A1 from the available list even though no
confirmed reservation holds A1, so the complement of the returned list is not
the confirmed-reservation spot set — reservations with other statuses do
remove spots from availability. -/
theorem C1_counterexample :
    "A1" ∈ all_spots "A" 55 ∧
    "A1" ∉ get_available_spots
        (Except.ok [⟨"r1", "A", some "A1", "2024-06-01", "u@example.com", "t", "pending"⟩])
        "A" "2024-06-01" ∧
    specConfirmedSpots
        [⟨"r1", "A", some "A1", "2024-06-01", "u@example.com", "t", "pending"⟩]
        "A" "2024-06-01" = [] := by
  decide

/-- C1, amended: for every zone Z with capacity C and every date D,
`get_available_spots(Z, D)` (with a successful store query) returns a
duplicate-free subsequence of the generated universe [Z1, ..., ZC] in natural
generation order, and the complement of the returned list within that
universe equals exactly the set of spot identifiers appearing on stored
reservations for (Z, D) of any status (every queried reservation carrying a
spot field removes that spot, with no status filter). -/
theorem C1_available_complement (docs : List Doc) (zone date : String) (cap : Nat)
    (h : zone_limits zone = some cap) :
    (get_available_spots (Except.ok docs) zone date).Sublist (all_spots zone cap) ∧
    (get_available_spots (Except.ok docs) zone date).Nodup ∧
    ∀ s, s ∈ all_spots zone cap →
      (s ∉ get_available_spots (Except.ok docs) zone date
        ↔ s ∈ used_spots (queryReservations docs zone date)) := by
  rw [get_available_spots_ok docs zone date cap h]
  refine ⟨List.filter_sublist _,
    (List.filter_sublist _).nodup (all_spots_nodup zone cap h), ?_⟩
  intro s hs
  simp [List.mem_filter, hs]

/-- C1, witness: instance of the amended availability theorem at zone A,
capacity 55, an empty store, spot A1. -/
theorem C1_witness :
    "A1" ∈ all_spots "A" 55 ∧
    ("A1" ∉ get_available_spots (Except.ok ([] : List Doc)) "A" "2024-06-01"
      ↔ "A1" ∈ used_spots (queryReservations [] "A" "2024-06-01")) :=
  ⟨by decide,
   (C1_available_complement [] "A" "2024-06-01" 55 rfl).2.2 "A1" (by decide)⟩

/-- C5: if the store query inside `get_available_spots` raises any error, the
operation returns the empty list instead of propagating the error, so this
result alone cannot distinguish a fully booked zone from a failed query. -/
theorem C5_query_failure_empty (e zone date : String) :
    get_available_spots (Except.error e) zone date = [] := rfl

/-- C6: POST validation order — a missing or empty zone/date/email field
yields the MissingFields 400 error; with all fields present, a zone outside
{A, B, C} yields the InvalidZone 400 error; in both cases the store is
unchanged and nothing is published, for every store and every outcome of the
external calls (so the failure happens before any availability computation
or store write). -/
theorem C6_validation_order (store : List Doc) (z d e s : Option String)
    (queryFail publishFail : Option String) (newId now : String) :
    ((truthy z && truthy d && truthy e) = false →
      reserve (postReq z d e s) store queryFail publishFail newId now
        = ⟨⟨Body.errorJson "Missing required fields", 400⟩, store, []⟩) ∧
    ((truthy z && truthy d && truthy e) = true →
      ["A", "B", "C"].contains (z.getD "") = false →
      reserve (postReq z d e s) store queryFail publishFail newId now
        = ⟨⟨Body.errorJson "Invalid zone", 400⟩, store, []⟩) :=
  ⟨reserve_missing_fields store z d e s queryFail publishFail newId now,
   fun hall hz => reserve_invalid_zone store z d e s queryFail publishFail newId now hall hz⟩

/-- C6, witness: a POST with zone "D" and all fields present gets the
InvalidZone 400 error with the store untouched and nothing published. -/
theorem C6_witness :
    (truthy (some "D") && truthy (some "2024-06-01") && truthy (some "u@example.com"))
      = true ∧
    ["A", "B", "C"].contains ((some "D").getD "") = false ∧
    reserve (postReq (some "D") (some "2024-06-01") (some "u@example.com") none)
        [] none none "r1" "t"
      = ⟨⟨Body.errorJson "Invalid zone", 400⟩, [], []⟩ :=
  ⟨by decide, by decide,
   (C6_validation_order [] (some "D") (some "2024-06-01") (some "u@example.com") none
      none none "r1" "t").2 (by decide) (by decide)⟩

/-- C9: the queue message contract matches end to end — `publish_email`
builds a JSON object with exactly the keys to, subject, message (in that
order), and `send_email`'s extraction of those three fields from an object of
that shape always succeeds. -/
theorem C9_queue_contract (toAddr subject message : String) :
    (publish_email_payload toAddr subject message).map Prod.fst
      = ["to", "subject", "message"] ∧
    extract_email_fields (publish_email_payload toAddr subject message)
      = some (toAddr, subject, message) :=
  ⟨rfl, rfl⟩

/-- C10: a GET available-spots request with a non-empty date and a non-empty
zone outside {A, B, C} returns HTTP 200 with an empty availableSpots list —
the KeyError from the unknown zone's capacity lookup is swallowed inside
`get_available_spots` — regardless of the query outcome, so invalid zones are
indistinguishable from fully booked zones on the GET path. -/
theorem C10_get_unknown_zone (store : List Doc) (zone date : String)
    (queryFail publishFail : Option String) (newId now : String)
    (hz0 : zone ≠ "") (hz : ["A", "B", "C"].contains zone = false) (hd : date ≠ "") :
    reserve (getReq (some zone) (some date)) store queryFail publishFail newId now
      = ⟨⟨Body.availableSpotsJson [] zone date, 200⟩, store, []⟩ := by
  have hlim : zone_limits zone = none := by
    have h' : ¬(zone = "A" ∨ zone = "B" ∨ zone = "C") := by simpa using hz
    push_neg at h'
    simp [zone_limits, h'.1, h'.2.1, h'.2.2]
  rw [reserve_get store zone date queryFail publishFail newId now hz0 hd]
  cases queryFail <;> simp [get_available_spots, queryResult, hlim]

/-- C10, witness: zone "Z" on the GET path with a successful query returns
200 with no spots. -/
theorem C10_witness :
    ("Z" : String) ≠ "" ∧ ["A", "B", "C"].contains "Z" = false ∧
    ("2024-06-01" : String) ≠ "" ∧
    reserve (getReq (some "Z") (some "2024-06-01")) [] none none "r1" "t"
      = ⟨⟨Body.availableSpotsJson [] "Z" "2024-06-01", 200⟩, [], []⟩ :=
  ⟨by decide, by decide, by decide,
   C10_get_unknown_zone [] "Z" "2024-06-01" none none "r1" "t"
     (by decide) (by decide) (by decide)⟩

/-- C2: a valid POST (zone in {A,B,C}, non-empty date and email) with no spot
requested auto-assigns the first entry of the available list, persists a
confirmed reservation on it and returns it as the assigned spot; if the
available list is empty it fails with the NoSpotsAvailable 400 error and
writes no reservation document. -/
theorem C2_auto_assign (store : List Doc) (zone date email newId now : String)
    (hz : ["A", "B", "C"].contains zone = true) (hd : date ≠ "") (he : email ≠ "") :
    (∀ s rest, get_available_spots (Except.ok store) zone date = s :: rest →
      reserve (postReq (some zone) (some date) (some email) none) store none none
          newId now
        = ⟨⟨Body.successJson s newId, 200⟩,
           store ++ [⟨newId, zone, some s, date, email, now, "confirmed"⟩],
           [publish_email_payload email "Parking Reservation Confirmation"
             (confirmationMessage zone s date newId)]⟩) ∧
    (get_available_spots (Except.ok store) zone date = [] →
      reserve (postReq (some zone) (some date) (some email) none) store none none
          newId now
        = ⟨⟨Body.errorJson "No available spots in this zone for selected date", 400⟩,
           store, []⟩) := by
  constructor
  · intro s rest hav
    exact reserve_auto_assign store zone date email newId now none s rest hz hd he hav
  · intro hav
    exact reserve_no_spots store zone date email newId now none none hz hd he hav

/-- C2, witness: on an empty store, zone A auto-assigns A1 and persists it. -/
theorem C2_witness :
    reserve (postReq (some "A") (some "2024-06-01") (some "u@example.com") none)
        [] none none "r1" "t"
      = ⟨⟨Body.successJson "A1" "r1", 200⟩,
         [⟨"r1", "A", some "A1", "2024-06-01", "u@example.com", "t", "confirmed"⟩],
         [publish_email_payload "u@example.com" "Parking Reservation Confirmation"
           (confirmationMessage "A" "A1" "2024-06-01" "r1")]⟩ :=
  (C2_auto_assign [] "A" "2024-06-01" "u@example.com" "r1" "t"
      (by decide) (by decide) (by decide)).1
    "A1" ((all_spots "A" 55).drop 1) (by decide)

/-- C3: a valid POST that requests a specific spot not in the available list
fails with the SpotUnavailable 400 error, writes no reservation document and
publishes no notification, whatever the outcomes of the external calls. -/
theorem C3_spot_unavailable (store : List Doc)
    (zone date email spot newId now : String) (queryFail publishFail : Option String)
    (hz : ["A", "B", "C"].contains zone = true)
    (hd : date ≠ "") (he : email ≠ "") (hs : spot ≠ "")
    (hns : (get_available_spots (queryResult store queryFail) zone date).contains spot
            = false) :
    reserve (postReq (some zone) (some date) (some email) (some spot)) store
        queryFail publishFail newId now
      = ⟨⟨Body.errorJson "Selected spot is no longer available", 400⟩, store, []⟩ :=
  reserve_spot_unavailable store zone date email spot newId now queryFail publishFail
    hz hd he hs hns

/-- C3, witness: with A1 already reserved, requesting A1 again is rejected
and the store and queue are untouched. -/
theorem C3_witness :
    (get_available_spots
        (queryResult [⟨"r0", "A", some "A1", "2024-06-01", "v@example.com", "t0",
          "confirmed"⟩] none) "A" "2024-06-01").contains "A1" = false ∧
    reserve (postReq (some "A") (some "2024-06-01") (some "u@example.com") (some "A1"))
        [⟨"r0", "A", some "A1", "2024-06-01", "v@example.com", "t0", "confirmed"⟩]
        none none "r1" "t"
      = ⟨⟨Body.errorJson "Selected spot is no longer available", 400⟩,
         [⟨"r0", "A", some "A1", "2024-06-01", "v@example.com", "t0", "confirmed"⟩],
         []⟩ :=
  ⟨by decide,
   C3_spot_unavailable
     [⟨"r0", "A", some "A1", "2024-06-01", "v@example.com", "t0", "confirmed"⟩]
     "A" "2024-06-01" "u@example.com" "A1" "r1" "t" none none
     (by decide) (by decide) (by decide) (by decide) (by decide)⟩

/-- C4, counterexample: with the reservation document already persisted, a
failing notification publish is surfaced to the caller as a 500 error — the
caller does not receive the success response with the assigned spot, contrary
to the claim (the document is indeed not rolled back). -/
theorem C4_counterexample :
    reserve (postReq (some "A") (some "2024-06-01") (some "u@example.com") none)
        [] none (some "Publish timeout") "r1" "t"
      = ⟨⟨Body.errorJson "Publish timeout", 500⟩,
         [⟨"r1", "A", some "A1", "2024-06-01", "u@example.com", "t", "confirmed"⟩],
         []⟩ ∧
    (reserve (postReq (some "A") (some "2024-06-01") (some "u@example.com") none)
        [] none (some "Publish timeout") "r1" "t").response.status ≠ 200 := by
  decide

/-- C4, amended: for every reservation request that reaches persistence —
whether the spot was auto-assigned from a non-empty available list or
explicitly requested and available — a failure of the subsequent notification
publish does not roll back (delete or alter) the persisted document, but it
IS surfaced to the caller: the exception escapes to the outer handler and the
caller receives a 500 error carrying the exception text instead of the
success response. -/
theorem C4_publish_failure (store : List Doc)
    (zone date email newId now errMsg : String)
    (hz : ["A", "B", "C"].contains zone = true) (hd : date ≠ "") (he : email ≠ "") :
    (∀ s rest, get_available_spots (Except.ok store) zone date = s :: rest →
      reserve (postReq (some zone) (some date) (some email) none) store none
          (some errMsg) newId now
        = ⟨⟨Body.errorJson errMsg, 500⟩,
           store ++ [⟨newId, zone, some s, date, email, now, "confirmed"⟩], []⟩) ∧
    (∀ spot, spot ≠ "" →
      spot ∈ get_available_spots (Except.ok store) zone date →
      reserve (postReq (some zone) (some date) (some email) (some spot)) store none
          (some errMsg) newId now
        = ⟨⟨Body.errorJson errMsg, 500⟩,
           store ++ [⟨newId, zone, some spot, date, email, now, "confirmed"⟩], []⟩) := by
  constructor
  · intro s rest hav
    exact reserve_auto_assign store zone date email newId now (some errMsg) s rest
      hz hd he hav
  · intro spot hs hmem
    exact reserve_requested_assign store zone date email spot newId now (some errMsg)
      hz hd he hs hmem

/-- C4, witness: on an empty store, with "boom" raised by the publish, both an
auto-assign request (persisting A1) and an explicit request for A3
(persisting A3) keep the written document and return the 500 error. -/
theorem C4_witness :
    reserve (postReq (some "A") (some "2024-06-01") (some "u@example.com") none)
        [] none (some "boom") "r1" "t"
      = ⟨⟨Body.errorJson "boom", 500⟩,
         [⟨"r1", "A", some "A1", "2024-06-01", "u@example.com", "t", "confirmed"⟩],
         []⟩ ∧
    reserve (postReq (some "A") (some "2024-06-01") (some "u@example.com") (some "A3"))
        [] none (some "boom") "r1" "t"
      = ⟨⟨Body.errorJson "boom", 500⟩,
         [⟨"r1", "A", some "A3", "2024-06-01", "u@example.com", "t", "confirmed"⟩],
         []⟩ :=
  ⟨(C4_publish_failure [] "A" "2024-06-01" "u@example.com" "r1" "t" "boom"
      (by decide) (by decide) (by decide)).1
    "A1" ((all_spots "A" 55).drop 1) (by decide),
   (C4_publish_failure [] "A" "2024-06-01" "u@example.com" "r1" "t" "boom"
      (by decide) (by decide) (by decide)).2
    "A3" (by decide) (by decide)⟩

/-- C8, counterexample: with a credential that is expired and has no refresh
token, `send_email` neither refreshes nor fails early — it proceeds to
attempt the send with the still-expired, unrefreshed credential, so no
CredentialUnavailable error is raised before the send. -/
theorem C8_counterexample :
    send_email_dispatch (some ⟨true, none, false⟩) "u@example.com" "S" "M"
      = DispatchStep.attemptSend (some ⟨true, none, false⟩) "u@example.com" "S" "M" := by
  decide

/-- C8, amended: for every delivered message the dispatcher loads the
credential from blob storage; if it is expired and a refresh token is present
it is refreshed before the send; if it is expired and no (truthy) refresh
token is present, the dispatcher does not fail with CredentialUnavailable —
it attempts the send with the expired credential unchanged. -/
theorem C8_refresh_behaviour (c : Credential) (toAddr subject message : String) :
    (c.expired = true → truthy c.refresh_token = true →
      send_email_dispatch (some c) toAddr subject message
        = DispatchStep.attemptSend (some (refreshCredential c)) toAddr subject message) ∧
    (c.expired = true → truthy c.refresh_token = false →
      send_email_dispatch (some c) toAddr subject message
        = DispatchStep.attemptSend (some c) toAddr subject message) := by
  constructor <;> intro h1 h2 <;>
    simp [send_email_dispatch, refreshStep, h1, h2]

/-- C8, witness: an expired credential with refresh token "rt" is refreshed
before the send is attempted. -/
theorem C8_witness :
    send_email_dispatch (some ⟨true, some "rt", false⟩) "u@example.com" "S" "M"
      = DispatchStep.attemptSend (some (refreshCredential ⟨true, some "rt", false⟩))
          "u@example.com" "S" "M" :=
  (C8_refresh_behaviour ⟨true, some "rt", false⟩ "u@example.com" "S" "M").1 rfl rfl

/-- C7: zone A has capacity 55; from any store with no reservations matching
(A, 2024-06-01), the available list is exactly [A1, ..., A55]; a POST with no
spot given succeeds assigning A1 with the (non-empty) generated reservation
id; and a second identical call against the store left by the first succeeds
assigning A2. -/
theorem C7_end_to_end (store : List Doc) (newId1 newId2 now1 now2 : String)
    (hmatch : queryReservations store "A" "2024-06-01" = [])
    (h1 : newId1 ≠ "") :
    zone_limits "A" = some 55 ∧
    get_available_spots (Except.ok store) "A" "2024-06-01" =
      ["A1", "A2", "A3", "A4", "A5", "A6", "A7", "A8", "A9", "A10", "A11",
       "A12", "A13", "A14", "A15", "A16", "A17", "A18", "A19", "A20", "A21",
       "A22", "A23", "A24", "A25", "A26", "A27", "A28", "A29", "A30", "A31",
       "A32", "A33", "A34", "A35", "A36", "A37", "A38", "A39", "A40", "A41",
       "A42", "A43", "A44", "A45", "A46", "A47", "A48", "A49", "A50", "A51",
       "A52", "A53", "A54", "A55"] ∧
    ((reserve (postReq (some "A") (some "2024-06-01") (some "u@example.com") none)
        store none none newId1 now1).response
      = ⟨Body.successJson "A1" newId1, 200⟩ ∧ newId1 ≠ "") ∧
    (reserve (postReq (some "A") (some "2024-06-01") (some "u@example.com") none)
        (reserve (postReq (some "A") (some "2024-06-01") (some "u@example.com") none)
          store none none newId1 now1).store
        none none newId2 now2).response
      = ⟨Body.successJson "A2" newId2, 200⟩ := by
  have hcap : zone_limits "A" = some 55 := rfl
  have havail : get_available_spots (Except.ok store) "A" "2024-06-01"
      = all_spots "A" 55 :=
    avail_of_no_matching store "A" "2024-06-01" 55 hcap hmatch
  have hr1 : reserve (postReq (some "A") (some "2024-06-01") (some "u@example.com") none)
      store none none newId1 now1
      = ⟨⟨Body.successJson "A1" newId1, 200⟩,
         store ++ [⟨newId1, "A", some "A1", "2024-06-01", "u@example.com", now1,
           "confirmed"⟩],
         [publish_email_payload "u@example.com" "Parking Reservation Confirmation"
           (confirmationMessage "A" "A1" "2024-06-01" newId1)]⟩ :=
    reserve_auto_assign store "A" "2024-06-01" "u@example.com" newId1 now1 none
      "A1" ((all_spots "A" 55).drop 1) (by decide) (by decide) (by decide)
      (by rw [havail]; decide)
  have havail2 : get_available_spots
      (Except.ok (store ++ [⟨newId1, "A", some "A1", "2024-06-01", "u@example.com",
        now1, "confirmed"⟩])) "A" "2024-06-01"
      = "A2" :: ((all_spots "A" 55).drop 2) := by
    rw [get_available_spots_ok _ _ _ 55 hcap, queryReservations_append, hmatch]
    rfl
  have hr2 : reserve (postReq (some "A") (some "2024-06-01") (some "u@example.com") none)
      (store ++ [⟨newId1, "A", some "A1", "2024-06-01", "u@example.com", now1,
        "confirmed"⟩]) none none newId2 now2
      = ⟨⟨Body.successJson "A2" newId2, 200⟩,
         (store ++ [⟨newId1, "A", some "A1", "2024-06-01", "u@example.com", now1,
           "confirmed"⟩])
           ++ [⟨newId2, "A", some "A2", "2024-06-01", "u@example.com", now2,
             "confirmed"⟩],
         [publish_email_payload "u@example.com" "Parking Reservation Confirmation"
           (confirmationMessage "A" "A2" "2024-06-01" newId2)]⟩ :=
    reserve_auto_assign _ "A" "2024-06-01" "u@example.com" newId2 now2 none
      "A2" ((all_spots "A" 55).drop 2) (by decide) (by decide) (by decide) havail2
  refine ⟨rfl, ?_, ⟨?_, h1⟩, ?_⟩
  · rw [havail]; decide
  · rw [hr1]
  · rw [hr1]
    exact congrArg ReserveOutcome.response hr2

/-- C7, witness: instance on the empty store with ids r1 and r2. -/
theorem C7_witness :
    (reserve (postReq (some "A") (some "2024-06-01") (some "u@example.com") none)
        [] none none "r1" "t1").response = ⟨Body.successJson "A1" "r1", 200⟩ ∧
    (reserve (postReq (some "A") (some "2024-06-01") (some "u@example.com") none)
        (reserve (postReq (some "A") (some "2024-06-01") (some "u@example.com") none)
          [] none none "r1" "t1").store
        none none "r2" "t2").response = ⟨Body.successJson "A2" "r2", 200⟩ :=
  ⟨((C7_end_to_end [] "r1" "r2" "t1" "t2" (by decide) (by decide)).2.2.1).1,
   (C7_end_to_end [] "r1" "r2" "t1" "t2" (by decide) (by decide)).2.2.2⟩

end ParkingApp
